import Mathlib

/-!
Shallow embedding of `src/pokemon_battle.py` (a turn-based battle game) and
proofs of its specification claims.

Modelling conventions:
* Python `int` is `Int`; `hp`, `burn`, `power`, `accuracy` are `Int`.
* Randomness is injected: every call that draws randomness takes an `Rng`
  record carrying the values of the draws the Python code would make
  (`random.randint(1, 100)` accuracy roll, `random.randint(-2, 2)` damage
  noise, the boolean outcome of `random.random() < 0.10` for crit, and of
  `random.random() < 0.20` for burn).
* The float multiplier only takes the values 0.5, 1.0, 2.0 (all exact
  dyadics, products with ints of game magnitude are exact in IEEE double),
  so it is modelled by the inductive `Mult`; Python `int(x)` on such a float
  product truncates toward zero, which is `Int.tdiv`.
* In-place mutation of `Pokemon` objects becomes functional update: a
  mutating Python function returns the updated object(s) alongside its
  Python return value.  At every call site of `deal_damage` in the program,
  attacker and defender are distinct objects, so no aliasing is lost.
-/

namespace PokemonBattle

/-- `Move` dataclass: name, mtype, power, accuracy (default 100). -/
structure Move where
  name : String
  mtype : String
  power : Int
  accuracy : Int := 100
deriving DecidableEq, Repr

/-- `Pokemon` dataclass: name, ptype, max_hp, hp, moves, burn (default 0). -/
structure Pokemon where
  name : String
  ptype : String
  max_hp : Int
  hp : Int
  moves : List Move
  burn : Int := 0
deriving DecidableEq, Repr

/-- The damage multiplier values that `type_multiplier` can return
(Python floats 2.0 / 0.5 / 1.0). -/
inductive Mult where
  | two
  | half
  | one
deriving DecidableEq, Repr

/-- `EFFECT` lookup with default 1.0:
`type_multiplier(att_type, def_type) = EFFECT.get((att_type, def_type), 1.0)`. -/
def type_multiplier (att_type def_type : String) : Mult :=
  if att_type = "Fire" ∧ def_type = "Grass" then .two
  else if att_type = "Grass" ∧ def_type = "Water" then .two
  else if att_type = "Water" ∧ def_type = "Fire" then .two
  else if att_type = "Grass" ∧ def_type = "Fire" then .half
  else if att_type = "Water" ∧ def_type = "Grass" then .half
  else if att_type = "Fire" ∧ def_type = "Water" then .half
  else .one

/-- Python `int(base * mult)` for `mult` ∈ {2.0, 1.0, 0.5}: the float product
is exact and `int` truncates toward zero (`Int.tdiv`). -/
def multTrunc (m : Mult) (base : Int) : Int :=
  match m with
  | .two => 2 * base
  | .one => base
  | .half => base.tdiv 2

/-- `clamp(n, lo, hi) = max(lo, min(hi, n))`. -/
def clamp (n lo hi : Int) : Int :=
  max lo (min hi n)

/-- `clone_pokemon`: fresh copy at full hp with no burn. -/
def clone_pokemon (template : Pokemon) : Pokemon :=
  { name := template.name, ptype := template.ptype, max_hp := template.max_hp,
    hp := template.max_hp, moves := template.moves, burn := 0 }

/-- `apply_burn(p)`: burn damage at start of turn.  Mutates `p` in place in
Python; here returns the updated combatant together with the damage dealt. -/
def apply_burn (p : Pokemon) : Pokemon × Int :=
  if p.burn > 0 ∧ p.hp > 0 then
    ({ p with burn := p.burn - 1, hp := clamp (p.hp - 2) 0 p.max_hp }, 2)
  else
    (p, 0)

/-- The random draws one call of `deal_damage` may make, injected explicitly.
`accRoll` is the `random.randint(1, 100)` accuracy roll; `noise` is the
`random.randint(-2, 2)` damage noise; `critRoll` is the outcome of
`random.random() < 0.10`; `burnRoll` the outcome of `random.random() < 0.20`. -/
structure Rng where
  accRoll : Int
  noise : Int
  critRoll : Bool
  burnRoll : Bool
deriving DecidableEq, Repr

/-- The dict returned by `deal_damage`. -/
structure DResult where
  missed : Bool
  damage : Int
  crit : Bool
  mult : Mult
  burned : Bool
deriving DecidableEq, Repr

/-- `deal_damage(attacker, defender, move)`.  Returns
`(attacker, defender', result)`: the Python function never reads or writes
the attacker, mutates the defender in place, and returns the result dict.
Crit applies `int(base * 1.5)`, i.e. truncation toward zero of `3*base/2`. -/
def deal_damage (attacker defender : Pokemon) (move : Move) (rng : Rng) :
    Pokemon × Pokemon × DResult :=
  if rng.accRoll > move.accuracy then
    (attacker, defender,
     { missed := true, damage := 0, crit := false, mult := .one, burned := false })
  else
    let base0 := move.power + rng.noise
    let mult := type_multiplier move.mtype defender.ptype
    let crit := rng.critRoll
    let base := if crit then (3 * base0).tdiv 2 else base0
    let dmg : Int := if move.power > 0 then max 1 (multTrunc mult base) else 0
    let hp1 := clamp (defender.hp - dmg) 0 defender.max_hp
    let burned :=
      move.mtype = "Fire" ∧ dmg > 0 ∧ hp1 > 0 ∧ defender.burn = 0 ∧ rng.burnRoll
    let defender1 :=
      { defender with hp := hp1, burn := if burned then 3 else defender.burn }
    (attacker, defender1,
     { missed := false, damage := dmg, crit := crit, mult := mult,
       burned := decide burned })

/-- `choose_enemy_move`'s weighted candidate list: non-Normal moves twice,
Normal moves once. -/
def weighted_moves (p : Pokemon) : List Move :=
  p.moves.flatMap (fun m => if m.mtype ≠ "Normal" then [m, m] else [m])

/-- `choose_enemy_move(p)` with the random choice injected as an index `k`
into the weighted list (Python picks `k` uniformly). -/
def choose_enemy_move (p : Pokemon) (k : Nat) : Move :=
  (weighted_moves p).getD k { name := "Struggle", mtype := "Normal", power := 0 }

/-- The hp mutation of `on_potion`:
`self.player.hp = clamp(self.player.hp + 15, 0, self.player.max_hp)`. -/
def potion_heal (p : Pokemon) : Pokemon :=
  { p with hp := clamp (p.hp + 15) 0 p.max_hp }

/-- The built-in `ROSTER` of 3 templates. -/
def ROSTER : List Pokemon :=
  [ { name := "Charmander", ptype := "Fire", max_hp := 60, hp := 60,
      moves := [ { name := "Scratch", mtype := "Normal", power := 10 },
                 { name := "Ember", mtype := "Fire", power := 14, accuracy := 95 },
                 { name := "Growl", mtype := "Normal", power := 6 } ] },
    { name := "Squirtle", ptype := "Water", max_hp := 62, hp := 62,
      moves := [ { name := "Tackle", mtype := "Normal", power := 10 },
                 { name := "Water Gun", mtype := "Water", power := 14, accuracy := 95 },
                 { name := "Tail Whip", mtype := "Normal", power := 6 } ] },
    { name := "Bulbasaur", ptype := "Grass", max_hp := 58, hp := 58,
      moves := [ { name := "Pound", mtype := "Normal", power := 10 },
                 { name := "Vine Whip", mtype := "Grass", power := 14, accuracy := 95 },
                 { name := "Growl", mtype := "Normal", power := 6 } ] } ]

/-! ### The manual-DB loader (`load_manual_db`)

The JSON values `json.load` can produce are modelled by `Json`.  Two
conscious simplifications of Python's coercions, both irrelevant to the
claims (which only exercise numeric and well-formed field values):
JSON numbers are modelled as integers (a fractional `hp` would be
truncated by Python's `int()`), and `int()` applied to a string is
modelled as failing (Python parses numeric strings). -/

inductive Json where
  | null
  | bool (b : Bool)
  | num (n : Int)
  | str (s : String)
  | arr (items : List Json)
  | obj (fields : List (String × Json))

/-- Dict lookup; JSON objects keep the last occurrence of a duplicated key. -/
def jlookup (fields : List (String × Json)) (k : String) : Option Json :=
  (fields.reverse.find? (fun kv => kv.1 = k)).map (fun kv => kv.2)

/-- `entry.get(k, default)`: `none` models the `AttributeError` raised when
`entry` is not a dict (caught by the per-entry `try`). -/
def pyGet (e : Json) (k : String) (d : Json) : Option Json :=
  match e with
  | .obj fs => some ((jlookup fs k).getD d)
  | _ => none

/-- Python `str(...)` on a JSON value (never fails; the repr of containers is
abbreviated, which no claim depends on). -/
def pyStr (j : Json) : String :=
  match j with
  | .null => "None"
  | .bool b => if b then "True" else "False"
  | .num n => toString n
  | .str s => s
  | .arr _ => "<list>"
  | .obj _ => "<dict>"

/-- Python `int(...)` on a JSON value; `none` models the raised exception. -/
def pyInt (j : Json) : Option Int :=
  match j with
  | .num n => some n
  | .bool b => some (if b then 1 else 0)
  | _ => none

/-- Python `str.capitalize()` (ASCII): first char upper, rest lower. -/
def pyCapitalize (s : String) : String :=
  match s.data with
  | [] => ""
  | c :: cs => String.mk (c.toUpper :: cs.map Char.toLower)

/-- The default move used to pad short move lists:
`Move("Tackle", "Normal", 10, 100)`. -/
def padMove : Move := { name := "Tackle", mtype := "Normal", power := 10, accuracy := 100 }

/-- One `mv` of the inner loop of `load_manual_db`.  `none` models an
exception aborting the whole entry: raised when `mv` is not a dict
(`mv.get`) or `int()` fails on the power/accuracy value; `str()` never
fails and the absent-key defaults are those of the source. -/
def parse_move (mv : Json) : Option Move :=
  match mv with
  | .obj fs =>
    match pyInt ((jlookup fs "power").getD (.num 10)),
          pyInt ((jlookup fs "accuracy").getD (.num 100)) with
    | some pow, some acc =>
      some { name := pyStr ((jlookup fs "name").getD (.str "Tackle")),
             mtype := pyCapitalize (pyStr ((jlookup fs "type").getD (.str "Normal"))),
             power := pow, accuracy := acc }
    | _, _ => none
  | _ => none

/-- One `entry` of the outer loop of `load_manual_db` (the body of the
per-entry `try`); `none` models the `except: continue`: raised when `entry`
is not a dict, `int()` fails on the hp value, or some move fails.  A
non-list `moves` value is modelled as failing (Python would iterate it and
fail on the first element unless it is empty, an irrelevant corner).  The
`while len < 3` padding is the appended `replicate`, the `[:3]` truncation
is `take 3`. -/
def parse_entry (entry : Json) : Option Pokemon :=
  match entry with
  | .obj fs =>
    match pyInt ((jlookup fs "hp").getD (.num 60)) with
    | some hp =>
      match (jlookup fs "moves").getD (.arr []) with
      | .arr movesRaw =>
        match movesRaw.mapM parse_move with
        | some mvs =>
          some { name := pyStr ((jlookup fs "name").getD (.str "Unknown")),
                 ptype := pyCapitalize (pyStr ((jlookup fs "type").getD (.str "Normal"))),
                 max_hp := hp, hp := hp,
                 moves := (mvs ++ List.replicate (3 - mvs.length) padMove).take 3 }
        | none => none
      | _ => none
    | none => none
  | _ => none

/-- `load_manual_db(path)`.  The argument models the result of opening and
`json.load`-ing the file: `none` is an I/O or parse failure. -/
def load_manual_db (data : Option Json) : Option (List Pokemon) :=
  match data with
  | none => none
  | some d =>
    match d with
    | .obj fs =>
      match (jlookup fs "pokemon").getD .null with
      | .arr entries =>
        if entries.isEmpty then none
        else
          let mons := entries.filterMap parse_entry
          if mons.isEmpty then none else some mons
      | _ => none
    | _ => none

/-- The pool selection in `BattleApp.__init__`:
`used_db = db_mons is not None and len(db_mons) >= 3`;
`source_pool = db_mons if used_db else ROSTER`. -/
def select_pool (db_mons : Option (List Pokemon)) : List Pokemon :=
  match db_mons with
  | some mons => if 3 ≤ mons.length then mons else ROSTER
  | none => ROSTER

/-! ### Round/match controller (`BattleApp`)

The engine-relevant mutable fields of `BattleApp`.  `self.player` is an
alias of `self.party[self.active_idx]` in Python; here the party list is
the single source of truth and `getPlayer`/`setPlayer` translate the
aliased reads/writes.  UI-only effects (labels, buttons, the log, `root.after`
scheduling) are abstracted into the returned event values. -/

/-- The persisted record dict `{"wins": .., "losses": .., "ties": ..}`. -/
structure Record where
  wins : Int
  losses : Int
  ties : Int
deriving DecidableEq, Repr

structure BattleState where
  party : List Pokemon
  active_idx : Nat
  enemy : Pokemon
  player_wins : Int
  enemy_wins : Int
  potion_count : Int
  record : Record
deriving DecidableEq, Repr

/-- Placeholder default for out-of-range list reads; every read the program
performs is in range (`active_idx` always indexes the 2-member party). -/
def dummyPokemon : Pokemon :=
  { name := "", ptype := "Normal", max_hp := 0, hp := 0, moves := [] }

/-- `self.player`, i.e. `self.party[self.active_idx]`. -/
def getPlayer (s : BattleState) : Pokemon :=
  s.party.getD s.active_idx dummyPokemon

/-- Write back a mutation of `self.player` into the party list. -/
def setPlayer (s : BattleState) (p : Pokemon) : BattleState :=
  { s with party := s.party.set s.active_idx p }

/-- `all(p.hp <= 0 for p in self.party)`. -/
def all_party_fainted (s : BattleState) : Bool :=
  s.party.all (fun p => p.hp ≤ 0)

/-- What `_end_round` does after updating the score: end the match with a
saved win, end it with a saved loss, or schedule `start_new_round`. -/
inductive EndAction where
  | matchWonSaved
  | matchLostSaved
  | nextRound
deriving DecidableEq, Repr

/-- `_end_round(player_won)`: update score, then either end the match
(incrementing and saving the persisted record) or schedule the next round. -/
def end_round (s : BattleState) (player_won : Option Bool) : BattleState × EndAction :=
  let s1 :=
    match player_won with
    | some true => { s with player_wins := s.player_wins + 1 }
    | some false => { s with enemy_wins := s.enemy_wins + 1 }
    | none => s
  if s1.player_wins ≥ 2 then
    ({ s1 with record := { s1.record with wins := s1.record.wins + 1 } }, .matchWonSaved)
  else if s1.enemy_wins ≥ 2 then
    ({ s1 with record := { s1.record with losses := s1.record.losses + 1 } }, .matchLostSaved)
  else
    (s1, .nextRound)

/-- `_end_round_if_needed()`: `some (outcome, s', action)` when it returns
`True` (the `outcome` is the `player_won` argument it passed to `_end_round`:
`none` = tie, `some true` = player round win, `some false` = round loss);
`none` when it returns `False` (state untouched). -/
def end_round_if_needed (s : BattleState) :
    Option (Option Bool × BattleState × EndAction) :=
  if s.enemy.hp ≤ 0 ∧ all_party_fainted s then
    some (none, end_round s none)
  else if s.enemy.hp ≤ 0 then
    some (some true, end_round s (some true))
  else if all_party_fainted s then
    some (some false, end_round s (some false))
  else
    none

/-- How one half-turn (`on_move_click` / `enemy_turn`) exits. -/
inductive HalfTurnEvent where
  /-- the initial hp guard returned without doing anything -/
  | rejected
  /-- `enemy_turn` only: the pre-burn faint check ended the round -/
  | preRoundEnded (outcome : Option Bool) (action : EndAction)
  /-- the actor's start-of-turn burn tick led to the round ending;
  its move was skipped -/
  | burnFaintRoundEnded (outcome : Option Bool) (action : EndAction)
  /-- the actor's move was resolved and the round then ended -/
  | moveResolvedRoundEnded (result : DResult) (outcome : Option Bool) (action : EndAction)
  /-- the actor's move was resolved and the round continues
  (the other side's turn is scheduled / controls re-enabled) -/
  | moveResolvedContinue (result : DResult)
deriving DecidableEq, Repr

/-- Whether the half-turn resolved the actor's move. -/
def HalfTurnEvent.resolvedMove : HalfTurnEvent → Bool
  | .moveResolvedRoundEnded _ _ _ => true
  | .moveResolvedContinue _ => true
  | _ => false

/-- Tail of `on_move_click` after the burn tick: fetch the chosen move,
resolve it against the enemy, then check for round end. -/
def resolve_player_move (s : BattleState) (move_idx : Nat) (rng : Rng) :
    BattleState × HalfTurnEvent :=
  let p := getPlayer s
  let move := p.moves.getD move_idx padMove
  let r := deal_damage p s.enemy move rng
  let s1 := { s with enemy := r.2.1 }
  match end_round_if_needed s1 with
  | some (oc, s2, a) => (s2, .moveResolvedRoundEnded r.2.2 oc a)
  | none => (s1, .moveResolvedContinue r.2.2)

/-- `on_move_click(move_idx)` (the move index is one of 0..2 from the UI). -/
def on_move_click (s : BattleState) (move_idx : Nat) (rng : Rng) :
    BattleState × HalfTurnEvent :=
  if (getPlayer s).hp ≤ 0 ∨ s.enemy.hp ≤ 0 then (s, .rejected)
  else
    let br := apply_burn (getPlayer s)
    let s1 := setPlayer s br.1
    if br.2 > 0 ∧ br.1.hp ≤ 0 then
      match end_round_if_needed s1 with
      | some (oc, s2, a) => (s2, .burnFaintRoundEnded oc a)
      | none => resolve_player_move s1 move_idx rng
    else
      resolve_player_move s1 move_idx rng

/-- Tail of `enemy_turn` after the burn tick: choose the enemy's move
(`k` injects the random index into the weighted list), resolve it against
the player, then check for round end. -/
def resolve_enemy_move (s : BattleState) (k : Nat) (rng : Rng) :
    BattleState × HalfTurnEvent :=
  let move := choose_enemy_move s.enemy k
  let r := deal_damage s.enemy (getPlayer s) move rng
  let s1 := setPlayer s r.2.1
  match end_round_if_needed s1 with
  | some (oc, s2, a) => (s2, .moveResolvedRoundEnded r.2.2 oc a)
  | none => (s1, .moveResolvedContinue r.2.2)

/-- The part of `enemy_turn` after its opening faint check: burn tick on the
enemy, then move resolution. -/
def enemy_turn_body (s : BattleState) (k : Nat) (rng : Rng) :
    BattleState × HalfTurnEvent :=
  let br := apply_burn s.enemy
  let s1 := { s with enemy := br.1 }
  if br.2 > 0 then
    match end_round_if_needed s1 with
    | some (oc, s2, a) => (s2, .burnFaintRoundEnded oc a)
    | none => resolve_enemy_move s1 k rng
  else
    resolve_enemy_move s1 k rng

/-- `enemy_turn()`: if either active combatant is already fainted, a round-end
check may return early; otherwise (and when that check does not fire) the
body runs. -/
def enemy_turn (s : BattleState) (k : Nat) (rng : Rng) :
    BattleState × HalfTurnEvent :=
  if s.enemy.hp ≤ 0 ∨ (getPlayer s).hp ≤ 0 then
    match end_round_if_needed s with
    | some (oc, s2, a) => (s2, .preRoundEnded oc a)
    | none => enemy_turn_body s k rng
  else enemy_turn_body s k rng

/-- The bench options `on_switch` offers:
`[(i, p) for i, p in enumerate(self.party) if i != self.active_idx and p.hp > 0]`
(indices only; the combatants are recovered by indexing). -/
def switch_options (s : BattleState) : List Nat :=
  (List.range s.party.length).filter
    (fun i => i ≠ s.active_idx ∧ (s.party.getD i dummyPokemon).hp > 0)

/-- `on_switch()` up to opening the dialog: `(s, false)` models the silent
no-op returns (fainted guard, no options), `(s, true)` the dialog opening. -/
def on_switch (s : BattleState) : BattleState × Bool :=
  if (getPlayer s).hp ≤ 0 ∨ s.enemy.hp ≤ 0 then (s, false)
  else if (switch_options s).isEmpty then (s, false)
  else (s, true)

/-- `do_switch(idx)` inside `on_switch`'s dialog: make `idx` active
(then the enemy's turn is scheduled). -/
def do_switch (s : BattleState) (idx : Nat) : BattleState :=
  { s with active_idx := idx }

/-- `on_potion()`: guards, then heal 15 clamped and decrement the count. -/
def on_potion (s : BattleState) : BattleState × Bool :=
  if (getPlayer s).hp ≤ 0 ∨ s.enemy.hp ≤ 0 then (s, false)
  else if s.potion_count ≤ 0 then (s, false)
  else
    let s1 := setPlayer s (potion_heal (getPlayer s))
    ({ s1 with potion_count := s1.potion_count - 1 }, true)

/-- Mathematical `floor(base × multiplier)` for the multiplier values, as the
spec's damage formula words it (to be compared with the code's `multTrunc`). -/
def multFloor (m : Mult) (base : Int) : Int :=
  match m with
  | .two => 2 * base
  | .one => base
  | .half => base.fdiv 2

/-! ### Helper lemmas -/

theorem clamp_nonneg_le (n hi : Int) (h : 0 ≤ hi) :
    0 ≤ clamp n 0 hi ∧ clamp n 0 hi ≤ hi := by
  unfold clamp
  constructor
  · exact le_max_left 0 _
  · exact max_le h (min_le_left hi n)

/-- `clamp (n, 0, hi) = 0` whenever `n ≤ 0` (even for `hi < 0`). -/
theorem clamp_eq_zero_of_nonpos (n hi : Int) (h : n ≤ 0) : clamp n 0 hi = 0 := by
  unfold clamp
  rcases le_total hi n with h1 | h1
  · simp [min_eq_left h1]
    omega
  · simp [min_eq_right h1]
    omega

/-- Truncation toward zero and floor agree under `max 1`: for nonnegative
numerators they coincide, and negative values are absorbed by the `max`. -/
theorem max_one_tdiv_eq_fdiv (b : Int) : max 1 (b.tdiv 2) = max 1 (b.fdiv 2) := by
  by_cases h : 0 ≤ b
  · rw [← Int.fdiv_eq_tdiv h (by norm_num)]
  · have h1 : b.tdiv 2 ≤ 0 := by
      have h2 : 0 ≤ (-b).tdiv 2 := Int.tdiv_nonneg (by omega) (by norm_num)
      rw [Int.neg_tdiv] at h2
      omega
    have h3 : b.fdiv 2 ≤ 0 := by
      rw [Int.fdiv_eq_ediv _ (by norm_num)]
      omega
    rw [max_eq_left (by omega), max_eq_left (by omega)]

theorem max_one_multTrunc_eq_multFloor (m : Mult) (b : Int) :
    max 1 (multTrunc m b) = max 1 (multFloor m b) := by
  cases m with
  | two => rfl
  | one => rfl
  | half => exact max_one_tdiv_eq_fdiv b

/-! ### Claims -/

/-- C1: for every `deal_damage` call that does not miss: if `move.power = 0`
the damage dealt is 0 regardless of multiplier, noise, or crit; if
`move.power > 0` the damage dealt equals
`max(1, floor(base × multiplier))` (with `base` the code's noise- and
crit-adjusted base) and is therefore ≥ 1, even when the multiplier is 0.5
and the base rounds below 1. -/
theorem claim_C1_damage_formula (attacker defender : Pokemon) (move : Move)
    (rng : Rng) (hhit : rng.accRoll ≤ move.accuracy) :
    (move.power = 0 →
      (deal_damage attacker defender move rng).2.2.damage = 0) ∧
    (0 < move.power →
      (deal_damage attacker defender move rng).2.2.damage =
        max 1 (multFloor (type_multiplier move.mtype defender.ptype)
          (if rng.critRoll then (3 * (move.power + rng.noise)).tdiv 2
           else move.power + rng.noise)) ∧
      1 ≤ (deal_damage attacker defender move rng).2.2.damage) := by
  have hnm : ¬ (rng.accRoll > move.accuracy) := not_lt.mpr hhit
  constructor
  · intro h0
    simp [deal_damage, hnm, h0]
  · intro hpos
    unfold deal_damage
    rw [if_neg hnm]
    simp only [if_pos hpos]
    refine ⟨by rw [max_one_multTrunc_eq_multFloor], le_max_left 1 _⟩

def pokeW : Pokemon :=
  { name := "W", ptype := "Grass", max_hp := 40, hp := 40,
    moves := [{ name := "Pound", mtype := "Normal", power := 10 }] }

def pokeWFoe : Pokemon :=
  { name := "F", ptype := "Fire", max_hp := 40, hp := 40,
    moves := [{ name := "Ember", mtype := "Fire", power := 14, accuracy := 95 }] }

def moveStatusW : Move := { name := "Growl", mtype := "Normal", power := 0 }

def moveWeakW : Move := { name := "Splash", mtype := "Grass", power := 1 }

def rngHitW : Rng := { accRoll := 37, noise := -2, critRoll := false, burnRoll := false }

theorem claim_C1_damage_formula_witness :
    (rngHitW.accRoll ≤ moveWeakW.accuracy ∧
      ((moveWeakW.power = 0 →
        (deal_damage pokeW pokeWFoe moveWeakW rngHitW).2.2.damage = 0) ∧
       (0 < moveWeakW.power →
        (deal_damage pokeW pokeWFoe moveWeakW rngHitW).2.2.damage =
          max 1 (multFloor (type_multiplier moveWeakW.mtype pokeWFoe.ptype)
            (if rngHitW.critRoll then (3 * (moveWeakW.power + rngHitW.noise)).tdiv 2
             else moveWeakW.power + rngHitW.noise)) ∧
        1 ≤ (deal_damage pokeW pokeWFoe moveWeakW rngHitW).2.2.damage))) ∧
    (rngHitW.accRoll ≤ moveStatusW.accuracy ∧
      ((moveStatusW.power = 0 →
        (deal_damage pokeW pokeWFoe moveStatusW rngHitW).2.2.damage = 0) ∧
       (0 < moveStatusW.power →
        (deal_damage pokeW pokeWFoe moveStatusW rngHitW).2.2.damage =
          max 1 (multFloor (type_multiplier moveStatusW.mtype pokeWFoe.ptype)
            (if rngHitW.critRoll then (3 * (moveStatusW.power + rngHitW.noise)).tdiv 2
             else moveStatusW.power + rngHitW.noise)) ∧
        1 ≤ (deal_damage pokeW pokeWFoe moveStatusW rngHitW).2.2.damage))) :=
  ⟨⟨by decide, claim_C1_damage_formula pokeW pokeWFoe moveWeakW rngHitW (by decide)⟩,
   ⟨by decide, claim_C1_damage_formula pokeW pokeWFoe moveStatusW rngHitW (by decide)⟩⟩

/-- C2: whenever the accuracy roll exceeds `move.accuracy`, `deal_damage`
returns missed=true with damage 0, no crit, multiplier 1, no status applied,
and both combatants unchanged.  The fully determined right-hand side does not
mention the noise, crit or burn draws of `rng`: the accuracy roll decides the
miss before any other random effect can influence the outcome. -/
theorem claim_C2_miss_no_effect (attacker defender : Pokemon) (move : Move)
    (rng : Rng) (hmiss : move.accuracy < rng.accRoll) :
    deal_damage attacker defender move rng =
      (attacker, defender,
       { missed := true, damage := 0, crit := false, mult := .one,
         burned := false }) := by
  unfold deal_damage
  rw [if_pos hmiss]

def rngMissW : Rng := { accRoll := 96, noise := 2, critRoll := true, burnRoll := true }

theorem claim_C2_miss_no_effect_witness :
    deal_damage pokeWFoe pokeW { name := "Ember", mtype := "Fire", power := 14, accuracy := 95 }
        rngMissW =
      (pokeWFoe, pokeW,
       { missed := true, damage := 0, crit := false, mult := .one,
         burned := false }) :=
  claim_C2_miss_no_effect pokeWFoe pokeW
    { name := "Ember", mtype := "Fire", power := 14, accuracy := 95 } rngMissW (by decide)

/-- C5: `apply_burn` with burn counter > 0 and hp > 0 decrements the counter
by exactly 1, deals exactly 2 damage clamped to the valid hp range, and
returns 2; otherwise it changes nothing and returns 0. -/
theorem claim_C5_burn_tick (p : Pokemon) :
    (0 < p.burn → 0 < p.hp →
      apply_burn p =
        ({ p with burn := p.burn - 1, hp := clamp (p.hp - 2) 0 p.max_hp }, 2)) ∧
    (p.burn ≤ 0 ∨ p.hp ≤ 0 → apply_burn p = (p, 0)) := by
  constructor
  · intro hb hh
    unfold apply_burn
    rw [if_pos ⟨hb, hh⟩]
  · intro h
    unfold apply_burn
    rw [if_neg (by omega)]

def pokeBurnW : Pokemon :=
  { name := "B", ptype := "Fire", max_hp := 30, hp := 3, moves := [], burn := 2 }

def pokeNoBurnW : Pokemon :=
  { name := "N", ptype := "Fire", max_hp := 30, hp := 3, moves := [], burn := 0 }

theorem claim_C5_burn_tick_witness :
    apply_burn pokeBurnW =
      ({ pokeBurnW with burn := pokeBurnW.burn - 1, hp := clamp (pokeBurnW.hp - 2) 0 pokeBurnW.max_hp }, 2) ∧
    apply_burn pokeNoBurnW = (pokeNoBurnW, 0) :=
  ⟨(claim_C5_burn_tick pokeBurnW).1 (by decide) (by decide),
   (claim_C5_burn_tick pokeNoBurnW).2 (Or.inl (by decide))⟩

/-- C10: `deal_damage` never changes the attacker, hit or miss: the returned
attacker (its hp, burn counter and move list included) is exactly the input
attacker; this engine variant has no recoil. -/
theorem claim_C10_attacker_untouched (attacker defender : Pokemon) (move : Move)
    (rng : Rng) :
    (deal_damage attacker defender move rng).1 = attacker ∧
    (deal_damage attacker defender move rng).1.hp = attacker.hp ∧
    (deal_damage attacker defender move rng).1.burn = attacker.burn ∧
    (deal_damage attacker defender move rng).1.moves = attacker.moves := by
  unfold deal_damage
  split <;> simp

/-- C4: each state-mutating engine operation — damage resolution on the
defender, the burn tick, and the potion heal — preserves the invariant
`0 ≤ hp ≤ max_hp` of the combatant it mutates (`max_hp` itself is
unchanged by each operation). -/
theorem claim_C4_hp_invariant :
    (∀ (a d : Pokemon) (m : Move) (rng : Rng), 0 ≤ d.hp → d.hp ≤ d.max_hp →
      0 ≤ (deal_damage a d m rng).2.1.hp ∧
      (deal_damage a d m rng).2.1.hp ≤ (deal_damage a d m rng).2.1.max_hp ∧
      (deal_damage a d m rng).2.1.max_hp = d.max_hp) ∧
    (∀ p : Pokemon, 0 ≤ p.hp → p.hp ≤ p.max_hp →
      0 ≤ (apply_burn p).1.hp ∧ (apply_burn p).1.hp ≤ (apply_burn p).1.max_hp ∧
      (apply_burn p).1.max_hp = p.max_hp) ∧
    (∀ p : Pokemon, 0 ≤ p.hp → p.hp ≤ p.max_hp →
      0 ≤ (potion_heal p).hp ∧ (potion_heal p).hp ≤ (potion_heal p).max_hp ∧
      (potion_heal p).max_hp = p.max_hp) := by
  refine ⟨fun a d m rng h0 h1 => ?_, fun p h0 h1 => ?_, fun p h0 h1 => ?_⟩
  · have hmax : (0 : Int) ≤ d.max_hp := le_trans h0 h1
    unfold deal_damage
    split
    · exact ⟨h0, h1, rfl⟩
    · have hc := clamp_nonneg_le (d.hp -
        (if m.power > 0 then
          max 1 (multTrunc (type_multiplier m.mtype d.ptype)
            (if rng.critRoll then (3 * (m.power + rng.noise)).tdiv 2
             else m.power + rng.noise)) else 0)) d.max_hp hmax
      exact ⟨hc.1, hc.2, rfl⟩
  · have hmax : (0 : Int) ≤ p.max_hp := le_trans h0 h1
    unfold apply_burn
    split
    · have hc := clamp_nonneg_le (p.hp - 2) p.max_hp hmax
      exact ⟨hc.1, hc.2, rfl⟩
    · exact ⟨h0, h1, rfl⟩
  · have hmax : (0 : Int) ≤ p.max_hp := le_trans h0 h1
    have hc := clamp_nonneg_le (p.hp + 15) p.max_hp hmax
    exact ⟨hc.1, hc.2, rfl⟩

theorem claim_C4_hp_invariant_witness :
    ((0 : Int) ≤ pokeW.hp ∧ pokeW.hp ≤ pokeW.max_hp) ∧
    (0 ≤ (deal_damage pokeWFoe pokeW moveWeakW rngHitW).2.1.hp ∧
     (deal_damage pokeWFoe pokeW moveWeakW rngHitW).2.1.hp ≤
       (deal_damage pokeWFoe pokeW moveWeakW rngHitW).2.1.max_hp ∧
     (deal_damage pokeWFoe pokeW moveWeakW rngHitW).2.1.max_hp = pokeW.max_hp) ∧
    (0 ≤ (apply_burn pokeBurnW).1.hp ∧
     (apply_burn pokeBurnW).1.hp ≤ (apply_burn pokeBurnW).1.max_hp ∧
     (apply_burn pokeBurnW).1.max_hp = pokeBurnW.max_hp) ∧
    (0 ≤ (potion_heal pokeBurnW).hp ∧
     (potion_heal pokeBurnW).hp ≤ (potion_heal pokeBurnW).max_hp ∧
     (potion_heal pokeBurnW).max_hp = pokeBurnW.max_hp) :=
  ⟨⟨by decide, by decide⟩,
   claim_C4_hp_invariant.1 pokeWFoe pokeW moveWeakW rngHitW (by decide) (by decide),
   claim_C4_hp_invariant.2.1 pokeBurnW (by decide) (by decide),
   claim_C4_hp_invariant.2.2 pokeBurnW (by decide) (by decide)⟩

theorem all_party_fainted_iff (s : BattleState) :
    all_party_fainted s = true ↔ ∀ p ∈ s.party, p.hp ≤ 0 := by
  simp [all_party_fainted]

/-- C6: `_end_round_if_needed` resolves the round as a tie exactly when the
enemy and every member of the player's party are simultaneously at 0 hp; a
tie changes neither round-win counter, an enemy-only faint adds 1 to the
player's round wins, and a whole-party-only faint adds 1 to the opponent's. -/
theorem claim_C6_round_outcome (s : BattleState) :
    ((∃ x, end_round_if_needed s = some (none, x)) ↔
      s.enemy.hp ≤ 0 ∧ ∀ p ∈ s.party, p.hp ≤ 0) ∧
    (s.enemy.hp ≤ 0 → (∀ p ∈ s.party, p.hp ≤ 0) →
      ∃ s2 a, end_round_if_needed s = some (none, s2, a) ∧
        s2.player_wins = s.player_wins ∧ s2.enemy_wins = s.enemy_wins) ∧
    (s.enemy.hp ≤ 0 → ¬ (∀ p ∈ s.party, p.hp ≤ 0) →
      ∃ s2 a, end_round_if_needed s = some (some true, s2, a) ∧
        s2.player_wins = s.player_wins + 1 ∧ s2.enemy_wins = s.enemy_wins) ∧
    (0 < s.enemy.hp → (∀ p ∈ s.party, p.hp ≤ 0) →
      ∃ s2 a, end_round_if_needed s = some (some false, s2, a) ∧
        s2.player_wins = s.player_wins ∧ s2.enemy_wins = s.enemy_wins + 1) := by
  refine ⟨?_, ?_, ?_, ?_⟩
  · constructor
    · rintro ⟨x, hx⟩
      unfold end_round_if_needed at hx
      split at hx
      · rename_i h
        exact ⟨h.1, (all_party_fainted_iff s).mp h.2⟩
      · split at hx
        · simp at hx
        · split at hx
          · simp at hx
          · simp at hx
    · rintro ⟨h1, h2⟩
      unfold end_round_if_needed
      rw [if_pos ⟨h1, (all_party_fainted_iff s).mpr h2⟩]
      exact ⟨end_round s none, rfl⟩
  · intro h1 h2
    unfold end_round_if_needed
    rw [if_pos ⟨h1, (all_party_fainted_iff s).mpr h2⟩]
    refine ⟨(end_round s none).1, (end_round s none).2, rfl, ?_, ?_⟩ <;>
      · simp only [end_round]
        split_ifs <;> simp
  · intro h1 h2
    have hnf : ¬ (all_party_fainted s = true) := fun h => h2 ((all_party_fainted_iff s).mp h)
    unfold end_round_if_needed
    rw [if_neg (by intro h; exact hnf h.2), if_pos h1]
    refine ⟨(end_round s (some true)).1, (end_round s (some true)).2, rfl, ?_, ?_⟩ <;>
      · simp only [end_round]
        split_ifs <;> simp
  · intro h1 h2
    have hf : all_party_fainted s = true := (all_party_fainted_iff s).mpr h2
    have hne : ¬ (s.enemy.hp ≤ 0) := by omega
    unfold end_round_if_needed
    rw [if_neg (by intro h; exact hne h.1), if_neg hne, if_pos hf]
    refine ⟨(end_round s (some false)).1, (end_round s (some false)).2, rfl, ?_, ?_⟩ <;>
      · simp only [end_round]
        split_ifs <;> simp

def recordW : Record := { wins := 4, losses := 2, ties := 1 }

def stateTieW : BattleState :=
  { party := [{ pokeW with hp := 0 }], active_idx := 0,
    enemy := { pokeWFoe with hp := 0 }, player_wins := 1, enemy_wins := 0,
    potion_count := 2, record := recordW }

theorem claim_C6_round_outcome_witness :
    ((∃ x, end_round_if_needed stateTieW = some (none, x)) ↔
      stateTieW.enemy.hp ≤ 0 ∧ ∀ p ∈ stateTieW.party, p.hp ≤ 0) ∧
    (∃ s2 a, end_round_if_needed stateTieW = some (none, s2, a) ∧
      s2.player_wins = stateTieW.player_wins ∧ s2.enemy_wins = stateTieW.enemy_wins) :=
  ⟨(claim_C6_round_outcome stateTieW).1,
   (claim_C6_round_outcome stateTieW).2.1 (by decide) (by decide)⟩

/-- C7: starting from round-win counters both below 2, `_end_round` ends the
match exactly when a counter reaches 2: it then increments and saves the
persisted record's wins (player side) or losses (opponent side) and starts
no further round; otherwise the record is untouched and the next round is
scheduled. -/
theorem claim_C7_match_end (s : BattleState) (pw : Option Bool)
    (hp2 : s.player_wins < 2) (he2 : s.enemy_wins < 2) :
    ((end_round s pw).2 = .matchWonSaved ↔ (end_round s pw).1.player_wins = 2) ∧
    ((end_round s pw).2 = .matchLostSaved ↔ (end_round s pw).1.enemy_wins = 2) ∧
    ((end_round s pw).2 = .matchWonSaved →
      (end_round s pw).1.record.wins = s.record.wins + 1 ∧
      (end_round s pw).1.record.losses = s.record.losses) ∧
    ((end_round s pw).2 = .matchLostSaved →
      (end_round s pw).1.record.losses = s.record.losses + 1 ∧
      (end_round s pw).1.record.wins = s.record.wins) ∧
    ((end_round s pw).2 = .nextRound ↔
      (end_round s pw).1.player_wins < 2 ∧ (end_round s pw).1.enemy_wins < 2) ∧
    ((end_round s pw).2 = .nextRound → (end_round s pw).1.record = s.record) := by
  rcases pw with _ | b
  · simp only [end_round]
    split_ifs with h1 h2 <;> simp_all <;> omega
  · cases b <;>
      (simp only [end_round]; split_ifs with h1 h2 <;> simp_all <;> omega)

theorem claim_C7_match_end_witness :
    ((end_round stateTieW (some true)).2 = .matchWonSaved ↔
      (end_round stateTieW (some true)).1.player_wins = 2) ∧
    ((end_round stateTieW (some true)).2 = .matchLostSaved ↔
      (end_round stateTieW (some true)).1.enemy_wins = 2) ∧
    ((end_round stateTieW (some true)).2 = .matchWonSaved →
      (end_round stateTieW (some true)).1.record.wins = stateTieW.record.wins + 1 ∧
      (end_round stateTieW (some true)).1.record.losses = stateTieW.record.losses) ∧
    ((end_round stateTieW (some true)).2 = .matchLostSaved →
      (end_round stateTieW (some true)).1.record.losses = stateTieW.record.losses + 1 ∧
      (end_round stateTieW (some true)).1.record.wins = stateTieW.record.wins) ∧
    ((end_round stateTieW (some true)).2 = .nextRound ↔
      (end_round stateTieW (some true)).1.player_wins < 2 ∧
      (end_round stateTieW (some true)).1.enemy_wins < 2) ∧
    ((end_round stateTieW (some true)).2 = .nextRound →
      (end_round stateTieW (some true)).1.record = stateTieW.record) :=
  claim_C7_match_end stateTieW (some true) (by decide) (by decide)

/-! ### Frame lemmas on the round controller and the half-turns -/

theorem end_round_party (s : BattleState) (pw : Option Bool) :
    (end_round s pw).1.party = s.party := by
  rcases pw with _ | b
  · simp only [end_round]
    split_ifs <;> rfl
  · cases b <;> (simp only [end_round]; split_ifs <;> rfl)

theorem end_round_enemy (s : BattleState) (pw : Option Bool) :
    (end_round s pw).1.enemy = s.enemy := by
  rcases pw with _ | b
  · simp only [end_round]
    split_ifs <;> rfl
  · cases b <;> (simp only [end_round]; split_ifs <;> rfl)

theorem end_round_if_needed_frame (s : BattleState) (oc : Option Bool)
    (s2 : BattleState) (a : EndAction)
    (h : end_round_if_needed s = some (oc, s2, a)) :
    s2.party = s.party ∧ s2.enemy = s.enemy := by
  have key : ∀ pw : Option Bool, end_round s pw = (s2, a) →
      s2.party = s.party ∧ s2.enemy = s.enemy := by
    intro pw hpw
    have h1 := end_round_party s pw
    have h2 := end_round_enemy s pw
    rw [hpw] at h1 h2
    exact ⟨h1, h2⟩
  unfold end_round_if_needed at h
  split_ifs at h <;>
    · simp only [Option.some_inj, Prod.mk.injEq] at h
      exact key _ h.2

theorem resolve_player_move_party (s : BattleState) (i : Nat) (rng : Rng) :
    (resolve_player_move s i rng).1.party = s.party := by
  simp only [resolve_player_move]
  split
  · rename_i oc s2 a heq
    exact (end_round_if_needed_frame _ _ _ _ heq).1
  · rfl

theorem resolve_player_move_resolves (s : BattleState) (i : Nat) (rng : Rng) :
    ((resolve_player_move s i rng).2).resolvedMove = true := by
  simp only [resolve_player_move]
  split <;> rfl

theorem resolve_enemy_move_resolves (s : BattleState) (k : Nat) (rng : Rng) :
    ((resolve_enemy_move s k rng).2).resolvedMove = true := by
  simp only [resolve_enemy_move]
  split <;> rfl

theorem setPlayer_getD_ne (s : BattleState) (p : Pokemon) (j : Nat)
    (hj : j ≠ s.active_idx) :
    (setPlayer s p).party.getD j dummyPokemon = s.party.getD j dummyPokemon := by
  unfold setPlayer
  simp [List.getElem?_set_ne (fun h => hj h.symm)]

theorem getPlayer_mem (s : BattleState) (h : s.active_idx < s.party.length) :
    getPlayer s ∈ s.party := by
  unfold getPlayer
  rw [List.getD_eq_getElem?_getD, List.getElem?_eq_getElem h]
  exact List.getElem_mem h

theorem all_party_fainted_false_of_active_alive (s : BattleState)
    (h : s.active_idx < s.party.length) (hhp : 0 < (getPlayer s).hp) :
    all_party_fainted s = false := by
  rw [Bool.eq_false_iff]
  intro hall
  have := (all_party_fainted_iff s).mp hall (getPlayer s) (getPlayer_mem s h)
  omega

theorem end_round_if_needed_of_enemy_fainted (s : BattleState)
    (he : s.enemy.hp ≤ 0) (hnf : all_party_fainted s = false) :
    end_round_if_needed s = some (some true, end_round s (some true)) := by
  unfold end_round_if_needed
  rw [if_neg (by simp [hnf]), if_pos he]

theorem end_round_if_needed_of_all_fainted (s : BattleState)
    (he : 0 < s.enemy.hp) (hall : all_party_fainted s = true) :
    end_round_if_needed s = some (some false, end_round s (some false)) := by
  unfold end_round_if_needed
  rw [if_neg (fun h => absurd h.1 (by omega)), if_neg (by omega), if_pos hall]

theorem end_round_if_needed_of_alive (s : BattleState)
    (he : 0 < s.enemy.hp) (hnf : all_party_fainted s = false) :
    end_round_if_needed s = none := by
  unfold end_round_if_needed
  rw [if_neg (by simp [hnf]), if_neg (by omega), if_neg (by simp [hnf])]


/-! ### C3: burn faint at start of the acting half-turn -/

def cxC3Active : Pokemon :=
  { name := "A", ptype := "Fire", max_hp := 30, hp := 2,
    moves := [ { name := "Scratch", mtype := "Normal", power := 10 } ], burn := 1 }

def cxC3Bench : Pokemon :=
  { name := "B", ptype := "Water", max_hp := 30, hp := 10, moves := [] }

def cxC3Enemy : Pokemon :=
  { name := "E", ptype := "Water", max_hp := 30, hp := 20,
    moves := [ { name := "Tackle", mtype := "Normal", power := 10 } ] }

def cxC3S : BattleState :=
  { party := [cxC3Active, cxC3Bench], active_idx := 0, enemy := cxC3Enemy,
    player_wins := 0, enemy_wins := 0, potion_count := 2,
    record := { wins := 0, losses := 0, ties := 0 } }

def cxC3Rng : Rng := { accRoll := 1, noise := 0, critRoll := false, burnRoll := false }

/-- C3 counterexample: in `on_move_click`, the player's active combatant
faints from its start-of-turn burn tick while a benched party member still
has hp > 0 and the enemy is alive; the round is NOT resolved and the fainted
combatant's chosen move IS resolved against the opponent (the enemy drops
from 20 hp to 10 hp), contradicting the claim. -/
theorem claim_C3_counterexample :
    (apply_burn (getPlayer cxC3S)).2 = 2 ∧
    (apply_burn (getPlayer cxC3S)).1.hp = 0 ∧
    (cxC3S.party.getD 1 dummyPokemon).hp = 10 ∧
    cxC3S.enemy.hp = 20 ∧
    ((on_move_click cxC3S 0 cxC3Rng).2).resolvedMove = true ∧
    (on_move_click cxC3S 0 cxC3Rng).1.enemy.hp = 10 := by
  decide

/-- C3 (amended): if the acting combatant faints from its start-of-turn burn
tick, its chosen move is skipped exactly when that faint ends the round: the
opponent's half-turn (`enemy_turn`) always skips the move (the enemy faint
always ends the round), and the player's half-turn (`on_move_click`) skips
the move when every other party member is already fainted — but when a
benched party member still has hp > 0 and the enemy is alive, the round
does not end and the fainted combatant's move is still resolved. -/
theorem claim_C3_amended :
    (∀ (s : BattleState) (k : Nat) (rng : Rng),
      s.active_idx < s.party.length →
      0 < (getPlayer s).hp →
      0 < s.enemy.hp → s.enemy.hp ≤ 2 → 0 < s.enemy.burn →
      ∃ (a : EndAction) (s2 : BattleState),
        enemy_turn s k rng = (s2, .burnFaintRoundEnded (some true) a) ∧
        s2.party = s.party) ∧
    (∀ (s : BattleState) (i : Nat) (rng : Rng),
      s.active_idx < s.party.length →
      0 < (getPlayer s).hp → (getPlayer s).hp ≤ 2 → 0 < (getPlayer s).burn →
      0 < s.enemy.hp →
      (∀ j, j < s.party.length → j ≠ s.active_idx →
        (s.party.getD j dummyPokemon).hp ≤ 0) →
      ∃ (a : EndAction) (s2 : BattleState),
        on_move_click s i rng = (s2, .burnFaintRoundEnded (some false) a) ∧
        s2.enemy = s.enemy) ∧
    (∀ (s : BattleState) (i : Nat) (rng : Rng),
      s.active_idx < s.party.length →
      0 < (getPlayer s).hp → (getPlayer s).hp ≤ 2 → 0 < (getPlayer s).burn →
      0 < s.enemy.hp →
      (∃ j, j < s.party.length ∧ j ≠ s.active_idx ∧
        0 < (s.party.getD j dummyPokemon).hp) →
      ((on_move_click s i rng).2).resolvedMove = true) := by
  refine ⟨?_, ?_, ?_⟩
  · -- enemy side: a burn faint of the enemy always ends the round before its move
    intro s k rng hlen hphp hehp hehp2 heb
    have hguard : ¬ (s.enemy.hp ≤ 0 ∨ (getPlayer s).hp ≤ 0) := by omega
    have hburn : apply_burn s.enemy =
        ({ s.enemy with burn := s.enemy.burn - 1, hp := 0 }, 2) := by
      unfold apply_burn
      rw [if_pos ⟨heb, hehp⟩, clamp_eq_zero_of_nonpos _ _ (by omega)]
    have hnf : all_party_fainted
        { s with enemy := { s.enemy with burn := s.enemy.burn - 1, hp := 0 } } = false :=
      all_party_fainted_false_of_active_alive _ hlen hphp
    have hend := end_round_if_needed_of_enemy_fainted
      { s with enemy := { s.enemy with burn := s.enemy.burn - 1, hp := 0 } }
      (by norm_num) hnf
    refine ⟨(end_round { s with enemy := { s.enemy with burn := s.enemy.burn - 1, hp := 0 } } (some true)).2,
            (end_round { s with enemy := { s.enemy with burn := s.enemy.burn - 1, hp := 0 } } (some true)).1,
            ?_, ?_⟩
    · unfold enemy_turn
      rw [if_neg hguard]
      simp only [enemy_turn_body]
      rw [hburn]
      rw [if_pos (by norm_num : ((({ s.enemy with burn := s.enemy.burn - 1, hp := 0 }, 2) : Pokemon × Int).2 : Int) > 0)]
      rw [hend]
    · rw [end_round_party]
  · -- player side, rest of the party fainted: the burn faint ends the round
    intro s i rng hlen hphp hphp2 hpb hehp hrest
    have hguard : ¬ ((getPlayer s).hp ≤ 0 ∨ s.enemy.hp ≤ 0) := by omega
    have hburn : apply_burn (getPlayer s) =
        ({ getPlayer s with burn := (getPlayer s).burn - 1, hp := 0 }, 2) := by
      unfold apply_burn
      rw [if_pos ⟨hpb, hphp⟩, clamp_eq_zero_of_nonpos _ _ (by omega)]
    have hall : all_party_fainted
        (setPlayer s { getPlayer s with burn := (getPlayer s).burn - 1, hp := 0 }) = true := by
      rw [all_party_fainted_iff]
      intro x hx
      obtain ⟨j, hj, hxe⟩ := List.getElem_of_mem hx
      rw [← hxe]
      unfold setPlayer at hj ⊢
      rw [List.getElem_set]
      have hj2 : j < s.party.length := by simpa using hj
      split
      · norm_num
      · rename_i hne
        have := hrest j hj2 (fun h => hne (h ▸ rfl))
        rw [List.getD_eq_getElem?_getD, List.getElem?_eq_getElem hj2] at this
        simpa using this
    have hend := end_round_if_needed_of_all_fainted
      (setPlayer s { getPlayer s with burn := (getPlayer s).burn - 1, hp := 0 })
      (by simpa [setPlayer] using hehp) hall
    refine ⟨(end_round (setPlayer s { getPlayer s with burn := (getPlayer s).burn - 1, hp := 0 }) (some false)).2,
            (end_round (setPlayer s { getPlayer s with burn := (getPlayer s).burn - 1, hp := 0 }) (some false)).1,
            ?_, ?_⟩
    · unfold on_move_click
      rw [if_neg hguard]
      simp only []
      rw [hburn]
      rw [if_pos (by norm_num : ((({ getPlayer s with burn := (getPlayer s).burn - 1, hp := 0 }, 2) : Pokemon × Int).2 : Int) > 0 ∧ (({ getPlayer s with burn := (getPlayer s).burn - 1, hp := 0 }, 2) : Pokemon × Int).1.hp ≤ 0)]
      rw [hend]
    · rw [end_round_enemy]
      simp [setPlayer]
  · -- player side, a bench member alive: the round does not end and the move resolves
    intro s i rng hlen hphp hphp2 hpb hehp hbench
    obtain ⟨j, hj, hjne, hjhp⟩ := hbench
    have hguard : ¬ ((getPlayer s).hp ≤ 0 ∨ s.enemy.hp ≤ 0) := by omega
    have hburn : apply_burn (getPlayer s) =
        ({ getPlayer s with burn := (getPlayer s).burn - 1, hp := 0 }, 2) := by
      unfold apply_burn
      rw [if_pos ⟨hpb, hphp⟩, clamp_eq_zero_of_nonpos _ _ (by omega)]
    have hnf : all_party_fainted
        (setPlayer s { getPlayer s with burn := (getPlayer s).burn - 1, hp := 0 }) = false := by
      rw [Bool.eq_false_iff]
      intro hall
      have hj2 : j < (s.party.set s.active_idx
          { getPlayer s with burn := (getPlayer s).burn - 1, hp := 0 }).length := by
        simpa using hj
      have hle := (all_party_fainted_iff _).mp hall _ (List.getElem_mem hj2)
      rw [List.getElem_set] at hle
      rw [if_neg (fun h => hjne h.symm)] at hle
      rw [List.getD_eq_getElem?_getD, List.getElem?_eq_getElem hj] at hjhp
      simp at hjhp
      omega
    have hend := end_round_if_needed_of_alive
      (setPlayer s { getPlayer s with burn := (getPlayer s).burn - 1, hp := 0 })
      (by simpa [setPlayer] using hehp) hnf
    have hfull : on_move_click s i rng =
        resolve_player_move (setPlayer s { getPlayer s with burn := (getPlayer s).burn - 1, hp := 0 }) i rng := by
      unfold on_move_click
      rw [if_neg hguard]
      simp only []
      rw [hburn]
      rw [if_pos (by norm_num : ((({ getPlayer s with burn := (getPlayer s).burn - 1, hp := 0 }, 2) : Pokemon × Int).2 : Int) > 0 ∧ (({ getPlayer s with burn := (getPlayer s).burn - 1, hp := 0 }, 2) : Pokemon × Int).1.hp ≤ 0)]
      rw [hend]
    rw [hfull]
    exact resolve_player_move_resolves _ _ _

def c3aS : BattleState :=
  { party := [ { name := "P", ptype := "Normal", max_hp := 30, hp := 10, moves := [] } ],
    active_idx := 0,
    enemy := { name := "E", ptype := "Water", max_hp := 30, hp := 2,
               moves := [ { name := "Tackle", mtype := "Normal", power := 10 } ], burn := 1 },
    player_wins := 0, enemy_wins := 0, potion_count := 2,
    record := { wins := 0, losses := 0, ties := 0 } }

def c3bS : BattleState :=
  { party := [ { name := "A", ptype := "Fire", max_hp := 30, hp := 2,
                 moves := [ { name := "Scratch", mtype := "Normal", power := 10 } ], burn := 1 },
               { name := "B", ptype := "Water", max_hp := 30, hp := 0, moves := [] } ],
    active_idx := 0, enemy := cxC3Enemy,
    player_wins := 0, enemy_wins := 0, potion_count := 2,
    record := { wins := 0, losses := 0, ties := 0 } }

theorem claim_C3_amended_witness :
    (∃ (a : EndAction) (s2 : BattleState),
      enemy_turn c3aS 0 cxC3Rng = (s2, .burnFaintRoundEnded (some true) a) ∧
      s2.party = c3aS.party) ∧
    (∃ (a : EndAction) (s2 : BattleState),
      on_move_click c3bS 0 cxC3Rng = (s2, .burnFaintRoundEnded (some false) a) ∧
      s2.enemy = c3bS.enemy) ∧
    ((on_move_click cxC3S 0 cxC3Rng).2).resolvedMove = true :=
  ⟨claim_C3_amended.1 c3aS 0 cxC3Rng (by decide) (by decide) (by decide) (by decide)
      (by decide),
   claim_C3_amended.2.1 c3bS 0 cxC3Rng (by decide) (by decide) (by decide) (by decide)
      (by decide)
      (fun j hj hne => by
        have hj2 : j < 2 := by simpa [c3bS] using hj
        interval_cases j
        · exact absurd rfl hne
        · decide),
   claim_C3_amended.2.2 cxC3S 0 cxC3Rng (by decide) (by decide) (by decide) (by decide)
      (by decide) ⟨1, by decide, by decide, by decide⟩⟩

/-! ### C8: switching after the active combatant faints -/

theorem set_getD_ne (l : List Pokemon) (idx j : Nat) (p : Pokemon) (hj : j ≠ idx) :
    (l.set idx p).getD j dummyPokemon = l.getD j dummyPokemon := by
  simp [List.getElem?_set_ne (fun h => hj h.symm)]

theorem resolve_enemy_move_party (s : BattleState) (k : Nat) (rng : Rng) :
    ∃ p, (resolve_enemy_move s k rng).1.party = s.party.set s.active_idx p := by
  simp only [resolve_enemy_move]
  split
  · rename_i oc s2 a heq
    refine ⟨(deal_damage s.enemy (getPlayer s) (choose_enemy_move s.enemy k) rng).2.1, ?_⟩
    rw [(end_round_if_needed_frame _ _ _ _ heq).1]
    rfl
  · exact ⟨(deal_damage s.enemy (getPlayer s) (choose_enemy_move s.enemy k) rng).2.1, rfl⟩

theorem on_move_click_party (s : BattleState) (i : Nat) (rng : Rng) :
    (on_move_click s i rng).1.party = s.party ∨
    ∃ p, (on_move_click s i rng).1.party = s.party.set s.active_idx p := by
  simp only [on_move_click]
  split
  · left
    rfl
  · split
    · split
      · rename_i oc s2 a heq
        right
        refine ⟨(apply_burn (getPlayer s)).1, ?_⟩
        rw [(end_round_if_needed_frame _ _ _ _ heq).1]
        rfl
      · right
        refine ⟨(apply_burn (getPlayer s)).1, ?_⟩
        rw [resolve_player_move_party]
        rfl
    · right
      refine ⟨(apply_burn (getPlayer s)).1, ?_⟩
      rw [resolve_player_move_party]
      rfl

theorem enemy_turn_party (s : BattleState) (k : Nat) (rng : Rng) :
    (enemy_turn s k rng).1.party = s.party ∨
    ∃ p, (enemy_turn s k rng).1.party = s.party.set s.active_idx p := by
  have hbody : (enemy_turn_body s k rng).1.party = s.party ∨
      ∃ p, (enemy_turn_body s k rng).1.party = s.party.set s.active_idx p := by
    simp only [enemy_turn_body]
    split
    · split
      · rename_i oc s2 a heq
        left
        rw [(end_round_if_needed_frame _ _ _ _ heq).1]
      · right
        exact resolve_enemy_move_party _ _ _
    · right
      exact resolve_enemy_move_party _ _ _
  unfold enemy_turn
  split
  · split
    · rename_i oc s2 a heq
      left
      rw [(end_round_if_needed_frame _ _ _ _ heq).1]
    · exact hbody
  · exact hbody

def c8S : BattleState :=
  { party := [ { name := "A", ptype := "Fire", max_hp := 30, hp := 0,
                 moves := [ { name := "Scratch", mtype := "Normal", power := 10 } ] },
               { name := "B", ptype := "Water", max_hp := 30, hp := 10, moves := [] } ],
    active_idx := 0,
    enemy := { name := "E", ptype := "Water", max_hp := 30, hp := 5,
               moves := [ { name := "Tackle", mtype := "Normal", power := 10 } ] },
    player_wins := 0, enemy_wins := 0, potion_count := 2,
    record := { wins := 0, losses := 0, ties := 0 } }

/-- C8 counterexample: the active player combatant is at 0 hp, a benched
member has 10 hp (round not over), the enemy is alive — yet `on_switch` is a
silent no-op (its first guard rejects any interaction once the active
combatant has fainted), so switch-in after fainting is impossible. -/
theorem claim_C8_counterexample :
    (getPlayer c8S).hp = 0 ∧
    0 < c8S.enemy.hp ∧
    (c8S.party.getD 1 dummyPokemon).hp = 10 ∧
    on_switch c8S = (c8S, false) := by
  decide

/-- C8 (amended): benched party members do retain their hp/status (neither
half-turn touches any party slot other than the active one), but the switch
command is rejected as a no-op whenever the active combatant's hp is ≤ 0;
switching to a live benched member succeeds only while both active
combatants have hp > 0. -/
theorem claim_C8_amended :
    (∀ s : BattleState, (getPlayer s).hp ≤ 0 → on_switch s = (s, false)) ∧
    (∀ (s : BattleState) (i : Nat) (rng : Rng) (j : Nat), j ≠ s.active_idx →
      (on_move_click s i rng).1.party.getD j dummyPokemon =
        s.party.getD j dummyPokemon) ∧
    (∀ (s : BattleState) (k : Nat) (rng : Rng) (j : Nat), j ≠ s.active_idx →
      (enemy_turn s k rng).1.party.getD j dummyPokemon =
        s.party.getD j dummyPokemon) ∧
    (∀ (s : BattleState) (j : Nat),
      0 < (getPlayer s).hp → 0 < s.enemy.hp → j ∈ switch_options s →
      on_switch s = (s, true) ∧
      (do_switch s j).party = s.party ∧
      (do_switch s j).active_idx = j ∧
      0 < (getPlayer (do_switch s j)).hp) := by
  refine ⟨?_, ?_, ?_, ?_⟩
  · intro s h
    unfold on_switch
    rw [if_pos (Or.inl h)]
  · intro s i rng j hj
    rcases on_move_click_party s i rng with h | ⟨p, h⟩
    · rw [h]
    · rw [h, set_getD_ne _ _ _ _ hj]
  · intro s k rng j hj
    rcases enemy_turn_party s k rng with h | ⟨p, h⟩
    · rw [h]
    · rw [h, set_getD_ne _ _ _ _ hj]
  · intro s j hp he hmem
    have hopt := (List.mem_filter.mp hmem).2
    simp only [decide_eq_true_eq] at hopt
    refine ⟨?_, rfl, rfl, ?_⟩
    · unfold on_switch
      rw [if_neg (by omega), if_neg ?_]
      intro hempty
      rw [List.isEmpty_iff] at hempty
      rw [hempty] at hmem
      cases hmem
    · unfold getPlayer do_switch
      exact hopt.2

theorem claim_C8_amended_witness :
    on_switch c8S = (c8S, false) ∧
    (on_move_click cxC3S 0 cxC3Rng).1.party.getD 1 dummyPokemon =
      cxC3S.party.getD 1 dummyPokemon ∧
    (enemy_turn c3aS 0 cxC3Rng).1.party.getD 1 dummyPokemon =
      c3aS.party.getD 1 dummyPokemon ∧
    (on_switch cxC3S = (cxC3S, true) ∧
     (do_switch cxC3S 1).party = cxC3S.party ∧
     (do_switch cxC3S 1).active_idx = 1 ∧
     0 < (getPlayer (do_switch cxC3S 1)).hp) :=
  ⟨claim_C8_amended.1 c8S (by decide),
   claim_C8_amended.2.1 cxC3S 0 cxC3Rng 1 (by decide),
   claim_C8_amended.2.2.1 c3aS 0 cxC3Rng 1 (by decide),
   claim_C8_amended.2.2.2 cxC3S 1 (by decide) (by decide) (by decide)⟩

/-! ### C9: external catalog validation -/

theorem parse_entry_moves_length (e : Json) (p : Pokemon)
    (h : parse_entry e = some p) : p.moves.length = 3 := by
  unfold parse_entry at h
  split at h <;> try exact Option.noConfusion h
  split at h <;> try exact Option.noConfusion h
  split at h <;> try exact Option.noConfusion h
  split at h <;> try exact Option.noConfusion h
  rw [Option.some_inj] at h
  rw [← h]
  simp only [List.length_take, List.length_append, List.length_replicate]
  omega

theorem load_manual_db_entry_shape (data : Option Json) (mons : List Pokemon)
    (h : load_manual_db data = some mons) :
    ∀ p ∈ mons, ∃ e, parse_entry e = some p := by
  intro p hp
  rcases data with _ | d
  · exact absurd h (by simp [load_manual_db])
  · cases d <;> (simp only [load_manual_db] at h; try exact Option.noConfusion h)
    split at h <;> try exact Option.noConfusion h
    split_ifs at h
    rw [Option.some_inj] at h
    rw [← h] at hp
    obtain ⟨e, he, hpe⟩ := List.mem_filterMap.mp hp
    exact ⟨e, hpe⟩

/-- C9 amendment support, part 1: every template accepted from the external
catalog has exactly 3 moves. -/
theorem load_manual_db_moves (data : Option Json) (mons : List Pokemon)
    (h : load_manual_db data = some mons) : ∀ p ∈ mons, p.moves.length = 3 := by
  intro p hp
  obtain ⟨e, he⟩ := load_manual_db_entry_shape data mons h p hp
  exact parse_entry_moves_length e p he

def c9J : Json :=
  .obj [("pokemon", .arr [
    .obj [("name", .str "Zed"), ("hp", .num 0), ("moves", .arr [])],
    .obj [("name", .str "Yan"), ("hp", .num 50), ("moves", .arr [])],
    .obj [("name", .str "Xor"), ("hp", .num 50), ("moves", .arr [])]])]

def c9Mon (nm : String) (h : Int) : Pokemon :=
  { name := nm, ptype := "Normal", max_hp := h, hp := h,
    moves := [padMove, padMove, padMove] }

def c9Mons : List Pokemon := [c9Mon "Zed" 0, c9Mon "Yan" 50, c9Mon "Xor" 50]

/-- C9 counterexample: a 3-entry catalog whose first entry carries `hp = 0`
is fully accepted — the non-positive hp is stored as-is (no positivity
validation exists), the catalog is not rejected, and the fallback roster is
not used; this refutes the claim that every accepted template's hp is a
positive integer. -/
theorem claim_C9_counterexample :
    load_manual_db (some c9J) = some c9Mons ∧
    (c9Mons.getD 0 dummyPokemon).max_hp = 0 ∧
    (c9Mons.getD 0 dummyPokemon).hp = 0 ∧
    select_pool (load_manual_db (some c9J)) = c9Mons ∧
    select_pool (load_manual_db (some c9J)) ≠ ROSTER := by
  decide

/-- C9 (amended): each accepted template has exactly 3 moves (padded with the
default move if fewer were supplied, truncated if more); the type tag
defaults to "Normal", hp defaults to 60 and move power/accuracy default to
10/100 when the fields are absent — but hp is stored without any positivity
validation (zero or negative values are accepted as-is); malformed entries
are skipped, and a catalog that is missing, empty, or left with fewer than 3
templates is rejected in favour of the built-in 3-template roster. -/
theorem claim_C9_amended :
    (∀ (data : Option Json) (mons : List Pokemon), load_manual_db data = some mons →
      ∀ p ∈ mons, p.moves.length = 3) ∧
    (∀ (fs : List (String × Json)) (p : Pokemon), parse_entry (.obj fs) = some p →
      (jlookup fs "type" = none → p.ptype = "Normal") ∧
      (jlookup fs "hp" = none → p.max_hp = 60 ∧ p.hp = 60) ∧
      (jlookup fs "moves" = none → p.moves = [padMove, padMove, padMove])) ∧
    (∀ (fs : List (String × Json)) (m : Move), parse_move (.obj fs) = some m →
      (jlookup fs "power" = none → m.power = 10) ∧
      (jlookup fs "accuracy" = none → m.accuracy = 100)) ∧
    (∀ mons : List Pokemon, mons.length < 3 → select_pool (some mons) = ROSTER) ∧
    select_pool none = ROSTER ∧
    ROSTER.length = 3 := by
  refine ⟨load_manual_db_moves, ?_, ?_, ?_, rfl, rfl⟩
  · intro fs p h
    simp only [parse_entry] at h
    split at h <;> try exact Option.noConfusion h
    rename_i hp0 hhp
    split at h <;> try exact Option.noConfusion h
    rename_i movesRaw hmr
    split at h <;> try exact Option.noConfusion h
    rename_i mvs hmv
    rw [Option.some_inj] at h
    refine ⟨?_, ?_, ?_⟩
    · intro habs
      rw [habs] at h
      rw [← h]
      rfl
    · intro habs
      rw [habs] at hhp
      simp only [Option.getD, pyInt, Option.some_inj] at hhp
      rw [← h, ← hhp]
      exact ⟨rfl, rfl⟩
    · intro habs
      rw [habs] at hmr
      simp only [Option.getD] at hmr
      have hraw : movesRaw = [] := (Json.arr.inj hmr).symm
      rw [hraw] at hmv
      rw [List.mapM_nil] at hmv
      have hmv2 : mvs = [] := (Option.some_inj.mp hmv).symm
      rw [← h, hmv2]
      rfl
  · intro fs m h
    simp only [parse_move] at h
    split at h <;> try exact Option.noConfusion h
    rename_i pow acc hpow hacc
    rw [Option.some_inj] at h
    constructor
    · intro habs
      rw [habs] at hpow
      simp only [Option.getD, pyInt, Option.some_inj] at hpow
      rw [← h, ← hpow]
    · intro habs
      rw [habs] at hacc
      simp only [Option.getD, pyInt, Option.some_inj] at hacc
      rw [← h, ← hacc]
  · intro mons h
    simp only [select_pool]
    rw [if_neg (by omega)]

/-- The template produced by an empty catalog entry `{}`: every field is a
default. -/
def c9Default : Pokemon :=
  { name := "Unknown", ptype := "Normal", max_hp := 60, hp := 60,
    moves := [padMove, padMove, padMove] }

theorem claim_C9_amended_witness :
    (c9Mon "Zed" 0).moves.length = 3 ∧
    parse_entry (.obj []) = some c9Default ∧
    c9Default.ptype = "Normal" ∧
    parse_move (.obj []) = some padMove ∧
    padMove.power = 10 ∧
    select_pool (some [c9Mon "Zed" 0]) = ROSTER :=
  ⟨(claim_C9_amended.1 (some c9J) c9Mons (by decide)) (c9Mon "Zed" 0) (by decide),
   by decide,
   (claim_C9_amended.2.1 [] c9Default (by decide)).1 (by rfl),
   by decide,
   (claim_C9_amended.2.2.1 [] padMove (by decide)).1 (by rfl),
   claim_C9_amended.2.2.2.1 [c9Mon "Zed" 0] (by decide)⟩

end PokemonBattle
